import Mathlib

/-!
Shallow embedding of the capability-negotiation and shader-introspection
subsystem of the gfx-rs OpenGL backend (src/gldevice/lib.rs and
src/gl_device/shade.rs), together with theorems settling the spec claims.

Machine integers: the Rust code uses `uint` for version numbers, counts and
handles; these are embedded as `Nat` (no overflow is reachable in any claim).
Driver-side effects (GL calls) are modelled by explicit driver-reported data
passed in as parameters; backend state is passed explicitly.
-/

namespace Gfx

/-! ### Version (src/gldevice/lib.rs lines 66-110) -/

/-- `pub struct Version(VersionMajor, VersionMinor, Option<Revision>, VendorDetails)`
with `#[deriving(Eq, PartialEq, Ord, PartialOrd)]`. -/
structure Version where
  major : Nat
  minor : Nat
  revision : Option Nat
  vendor_info : String
deriving DecidableEq, Repr

/-- Rust `Ord` on `Nat` fields: standard numeric comparison. -/
def natCmp (a b : Nat) : Ordering :=
  if a < b then .lt else if a = b then .eq else .gt

/-- Rust derived `Ord` on `Option<uint>`: `None` is less than every `Some`. -/
def optNatCmp : Option Nat → Option Nat → Ordering
  | none, none => .eq
  | none, some _ => .lt
  | some _, none => .gt
  | some a, some b => natCmp a b

/-- Rust `Ord` on `&str`: lexicographic over the bytes; on the ASCII strings
this code deals in, identical to lexicographic comparison of the char codes. -/
def charsCmp : List Char → List Char → Ordering
  | [], [] => .eq
  | [], _ :: _ => .lt
  | _ :: _, [] => .gt
  | a :: as, b :: bs => (natCmp a.toNat b.toNat).then (charsCmp as bs)

def strCmp (a b : String) : Ordering :=
  charsCmp a.data b.data

/-- The `#[deriving(Ord)]` comparison on `Version`: lexicographic over the
fields in declaration order (major, minor, revision, vendor_info). -/
def versionCmp (a b : Version) : Ordering :=
  (natCmp a.major b.major).then
    ((natCmp a.minor b.minor).then
      ((optNatCmp a.revision b.revision).then
        (strCmp a.vendor_info b.vendor_info)))

/-- Rust `a >= b` from the derived `PartialOrd`: `cmp(a, b) != Less`. -/
def versionGe (a b : Version) : Bool :=
  versionCmp a b != Ordering.lt

/-- Rust `a <= b` from the derived `PartialOrd`: `cmp(a, b) != Greater`. -/
def versionLe (a b : Version) : Bool :=
  versionCmp a b != Ordering.gt

/-! ### Version::parse (src/gldevice/lib.rs lines 91-109) -/

/-- `uint::from_str` of the repository's Rust era: a nonempty all-digit
string parses; anything else is `None`. -/
def parseUint (s : List Char) : Option Nat :=
  if s ≠ [] ∧ s.all Char.isDigit then
    some (s.foldl (fun n c => n * 10 + (c.toNat - 48)) 0)
  else
    none

/-- `src.find(' ')` split: text before the first space and text after it;
`none` when the string has no space (Rust then uses `(src, "")`). -/
def breakAtSpace : List Char → Option (List Char × List Char)
  | [] => none
  | c :: cs =>
    if c = ' ' then some ([], cs)
    else (breakAtSpace cs).map (fun p => (c :: p.1, p.2))

/-- Rust `version.split('.')` collected to a list: always nonempty, with
empty segments kept (so `"1."` splits to `["1", ""]`). -/
def splitDots : List Char → List (List Char)
  | [] => [[]]
  | c :: cs =>
    if c = '.' then [] :: splitDots cs
    else
      match splitDots cs with
      | f :: r => (c :: f) :: r
      | [] => [[c]]

/-- The `(version, vendor_info)` pair computed at the top of
`Version::parse` (lib.rs lines 92-95). -/
def releaseAndVendor (src : String) : List Char × List Char :=
  match breakAtSpace src.data with
  | some p => p
  | none => (src.data, [])

/-- The dot-separated fields of the release token. -/
def releaseFields (src : String) : List (List Char) :=
  splitDots (releaseAndVendor src).1

/-- `Version::parse` (lib.rs lines 91-109): split off vendor info at the
first space, split the release token on dots, require numeric major and
minor, keep a numeric third field as the revision, else fail returning the
whole original string. -/
def Version.parse (src : String) : Except String Version :=
  match (releaseFields src)[0]?.bind parseUint,
        (releaseFields src)[1]?.bind parseUint with
  | some major, some minor =>
    .ok ⟨major, minor, (releaseFields src)[2]?.bind parseUint,
         String.mk (releaseAndVendor src).2⟩
  | _, _ => .error src

/-! ### Info and Capabilities (src/gldevice/lib.rs lines 145-251) -/

/-- The fields of `Info` that capability derivation reads: the parsed driver
version and the queried extension set (lib.rs lines 145-156). -/
structure Info where
  version : Version
  shading_language : Version
  extensions : List String

/-- `Info::is_extension_supported` (lib.rs lines 195-198). -/
def Info.is_extension_supported (i : Info) (s : String) : Bool :=
  i.extensions.contains s

/-- `device::Capabilities` as populated by `GlBackEnd::new`
(lib.rs lines 227-240). -/
structure Capabilities where
  shader_model : Version
  max_draw_buffers : Nat
  max_texture_size : Nat
  max_vertex_attributes : Nat
  uniform_block_supported : Bool
  array_buffer_supported : Bool
  immutable_storage_supported : Bool
  sampler_objects_supported : Bool

/-- The capability derivation in `GlBackEnd::new` (lib.rs lines 227-240):
each flag is a version test against a fixed threshold OR-ed with membership
of a fixed extension name. `shader_model` and the integer limits are driver
queries passed in. -/
def mkCapabilities (shaderModel : Version) (maxDraw maxTex maxAttr : Nat)
    (info : Info) : Capabilities :=
  { shader_model := shaderModel
    max_draw_buffers := maxDraw
    max_texture_size := maxTex
    max_vertex_attributes := maxAttr
    uniform_block_supported := versionGe info.version ⟨3, 1, none, ""⟩
      || info.is_extension_supported "GL_ARB_uniform_buffer_object"
    array_buffer_supported := versionGe info.version ⟨3, 0, none, ""⟩
      || info.is_extension_supported "GL_ARB_vertex_array_object"
    immutable_storage_supported := versionGe info.version ⟨4, 2, none, ""⟩
      || info.is_extension_supported "GL_ARB_texture_storage"
    sampler_objects_supported := versionGe info.version ⟨3, 3, none, ""⟩
      || info.is_extension_supported "GL_ARB_sampler_objects" }

/-! ### Shader interface types (device::shade, as consumed by
src/gl_device/shade.rs) -/

inductive Stage where
  | Vertex | Geometry | Fragment
deriving DecidableEq, Repr

inductive BaseType where
  | BaseF32 | BaseI32 | BaseU32 | BaseBool
deriving DecidableEq, Repr

inductive MatrixFormat where
  | ColumnMajor | RowMajor
deriving DecidableEq, Repr

inductive ContainerType where
  | Single
  | Vector (size : Nat)
  | Matrix (format : MatrixFormat) (rows cols : Nat)
deriving DecidableEq, Repr

inductive IsArray where
  | Array | NoArray
deriving DecidableEq, Repr

inductive IsShadow where
  | Shadow | NoShadow
deriving DecidableEq, Repr

inductive IsMultiSample where
  | MultiSample | NoMultiSample
deriving DecidableEq, Repr

inductive IsRect where
  | Rect | NoRect
deriving DecidableEq, Repr

inductive SamplerType where
  | Sampler1D (a : IsArray) (s : IsShadow)
  | Sampler2D (a : IsArray) (s : IsShadow) (m : IsMultiSample) (r : IsRect)
  | Sampler3D
  | SamplerCube (s : IsShadow)
deriving DecidableEq, Repr

/-- `StorageType` (gl_device/shade.rs lines 80-84). -/
inductive StorageType where
  | Var (b : BaseType) (c : ContainerType)
  | Sampler (b : BaseType) (t : SamplerType)
  | Unknown
deriving DecidableEq, Repr

/-- `StorageType::new` (gl_device/shade.rs lines 87-145): the closed table
from GL type-code enums to storage descriptors; every code outside the
table maps to `Unknown`.  The numeric patterns are the GL enum values
(gl::FLOAT = 0x1406, gl::FLOAT_VEC2 = 0x8B50, ...). -/
def StorageType.new (storage : Nat) : StorageType :=
  match storage with
  | 0x1406 => .Var .BaseF32 .Single              -- gl::FLOAT
  | 0x8B50 => .Var .BaseF32 (.Vector 2)          -- gl::FLOAT_VEC2
  | 0x8B51 => .Var .BaseF32 (.Vector 3)          -- gl::FLOAT_VEC3
  | 0x8B52 => .Var .BaseF32 (.Vector 4)          -- gl::FLOAT_VEC4
  | 0x1404 => .Var .BaseI32 .Single              -- gl::INT
  | 0x8B53 => .Var .BaseI32 (.Vector 2)          -- gl::INT_VEC2
  | 0x8B54 => .Var .BaseI32 (.Vector 3)          -- gl::INT_VEC3
  | 0x8B55 => .Var .BaseI32 (.Vector 4)          -- gl::INT_VEC4
  | 0x1405 => .Var .BaseU32 .Single              -- gl::UNSIGNED_INT
  | 0x8DC6 => .Var .BaseU32 (.Vector 2)          -- gl::UNSIGNED_INT_VEC2
  | 0x8DC7 => .Var .BaseU32 (.Vector 3)          -- gl::UNSIGNED_INT_VEC3
  | 0x8DC8 => .Var .BaseU32 (.Vector 4)          -- gl::UNSIGNED_INT_VEC4
  | 0x8B56 => .Var .BaseBool .Single             -- gl::BOOL
  | 0x8B57 => .Var .BaseBool (.Vector 2)         -- gl::BOOL_VEC2
  | 0x8B58 => .Var .BaseBool (.Vector 3)         -- gl::BOOL_VEC3
  | 0x8B59 => .Var .BaseBool (.Vector 4)         -- gl::BOOL_VEC4
  | 0x8B5A => .Var .BaseF32 (.Matrix .ColumnMajor 2 2)  -- gl::FLOAT_MAT2
  | 0x8B5B => .Var .BaseF32 (.Matrix .ColumnMajor 3 3)  -- gl::FLOAT_MAT3
  | 0x8B5C => .Var .BaseF32 (.Matrix .ColumnMajor 4 4)  -- gl::FLOAT_MAT4
  | 0x8B65 => .Var .BaseF32 (.Matrix .ColumnMajor 2 3)  -- gl::FLOAT_MAT2x3
  | 0x8B66 => .Var .BaseF32 (.Matrix .ColumnMajor 2 4)  -- gl::FLOAT_MAT2x4
  | 0x8B67 => .Var .BaseF32 (.Matrix .ColumnMajor 3 2)  -- gl::FLOAT_MAT3x2
  | 0x8B68 => .Var .BaseF32 (.Matrix .ColumnMajor 3 4)  -- gl::FLOAT_MAT3x4
  | 0x8B69 => .Var .BaseF32 (.Matrix .ColumnMajor 4 2)  -- gl::FLOAT_MAT4x2
  | 0x8B6A => .Var .BaseF32 (.Matrix .ColumnMajor 4 3)  -- gl::FLOAT_MAT4x3
  | 0x8B5D => .Sampler .BaseF32 (.Sampler1D .NoArray .NoShadow)  -- gl::SAMPLER_1D
  | 0x8DC0 => .Sampler .BaseF32 (.Sampler1D .Array .NoShadow)    -- gl::SAMPLER_1D_ARRAY
  | 0x8B61 => .Sampler .BaseF32 (.Sampler1D .NoArray .Shadow)    -- gl::SAMPLER_1D_SHADOW
  | 0x8DC3 => .Sampler .BaseF32 (.Sampler1D .Array .Shadow)      -- gl::SAMPLER_1D_ARRAY_SHADOW
  | 0x8B5E => .Sampler .BaseF32 (.Sampler2D .NoArray .NoShadow .NoMultiSample .NoRect)  -- gl::SAMPLER_2D
  | 0x8DC1 => .Sampler .BaseF32 (.Sampler2D .Array .NoShadow .NoMultiSample .NoRect)    -- gl::SAMPLER_2D_ARRAY
  | 0x8B62 => .Sampler .BaseF32 (.Sampler2D .NoArray .Shadow .NoMultiSample .NoRect)    -- gl::SAMPLER_2D_SHADOW
  | 0x9108 => .Sampler .BaseF32 (.Sampler2D .NoArray .NoShadow .MultiSample .NoRect)    -- gl::SAMPLER_2D_MULTISAMPLE
  | 0x8B63 => .Sampler .BaseF32 (.Sampler2D .NoArray .NoShadow .NoMultiSample .Rect)    -- gl::SAMPLER_2D_RECT
  | 0x8DC4 => .Sampler .BaseF32 (.Sampler2D .Array .Shadow .NoMultiSample .NoRect)      -- gl::SAMPLER_2D_ARRAY_SHADOW
  | 0x910B => .Sampler .BaseF32 (.Sampler2D .Array .NoShadow .MultiSample .NoRect)      -- gl::SAMPLER_2D_MULTISAMPLE_ARRAY
  | 0x8B64 => .Sampler .BaseF32 (.Sampler2D .NoArray .Shadow .NoMultiSample .Rect)      -- gl::SAMPLER_2D_RECT_SHADOW
  | 0x8B5F => .Sampler .BaseF32 .Sampler3D                        -- gl::SAMPLER_3D
  | 0x8B60 => .Sampler .BaseF32 (.SamplerCube .NoShadow)          -- gl::SAMPLER_CUBE
  | 0x8DC5 => .Sampler .BaseF32 (.SamplerCube .Shadow)            -- gl::SAMPLER_CUBE_SHADOW
  | _ => .Unknown

/-! ### Shader compilation (src/gl_device/shade.rs lines 19-66) -/

/-- `device::shade::ShaderSource`: a bundle of optional GLSL sources keyed
by language version. -/
structure ShaderSource where
  glsl_120 : Option String
  glsl_130 : Option String
  glsl_140 : Option String
  glsl_150 : Option String
deriving DecidableEq, Repr

inductive CreateShaderError where
  | NoSupportedShaderProvided
  | ShaderCompilationFailed
deriving DecidableEq, Repr

/-- Driver-reported state of one compiled shader: the handle returned by
`CreateShader`, the `COMPILE_STATUS` flag, the `INFO_LOG_LENGTH`, and the
text that `GetShaderInfoLog` would produce. -/
structure ShaderDriver where
  name : Nat
  status : Int
  logLength : Int
  log : String
deriving DecidableEq, Repr

/-- The variant-selection match of `create_shader` (shade.rs lines 27-34):
four pattern+guard arms from `glsl_150` down to `glsl_120`; an arm fires
when its source is present and the negotiated language version is at least
its tag; otherwise selection falls through to the next arm, and to failure
after the last. -/
def selectShader (d : ShaderSource) (lang : Version) : Option String :=
  if d.glsl_150.isSome && versionGe lang ⟨1, 50, none, ""⟩ then d.glsl_150
  else if d.glsl_140.isSome && versionGe lang ⟨1, 40, none, ""⟩ then d.glsl_140
  else if d.glsl_130.isSome && versionGe lang ⟨1, 30, none, ""⟩ then d.glsl_130
  else if d.glsl_120.isSome && versionGe lang ⟨1, 20, none, ""⟩ then d.glsl_120
  else none

/-- `create_shader` (shade.rs lines 19-66).  On selection failure it returns
the `NoSupportedShaderProvided` error with the fixed message, before any
driver interaction.  Otherwise the chosen source is compiled: the log is
fetched exactly when the driver reports a positive log length, and the
result is `Ok(name)` exactly when the compile status is nonzero. -/
def create_shader (_stage : Stage) (d : ShaderSource) (lang : Version)
    (drv : ShaderDriver) : Except CreateShaderError Nat × Option String :=
  match selectShader d lang with
  | none =>
    (.error .NoSupportedShaderProvided,
     some "[gfx-rs] No supported GLSL shader provided!")
  | some _ =>
    let log := if drv.logLength > 0 then some drv.log else none
    let name : Except CreateShaderError Nat :=
      if drv.status != 0 then .ok drv.name else .error .ShaderCompilationFailed
    (name, log)

/-! ### Program introspection (src/gl_device/shade.rs lines 148-272) -/

/-- Driver-reported data for one active attribute index: what
`GetActiveAttrib` and `GetAttribLocation` return (name, array size, type
code, location). -/
structure GlAttrib where
  name : String
  size : Nat
  storage : Nat
  loc : Nat
deriving DecidableEq, Repr

/-- `device::shade::Attribute`. -/
structure Attribute where
  name : String
  location : Nat
  count : Nat
  base_type : BaseType
  container : ContainerType
deriving DecidableEq, Repr

/-- `device::shade::UniformVar`. -/
structure UniformVar where
  name : String
  location : Nat
  count : Nat
  base_type : BaseType
  container : ContainerType
deriving DecidableEq, Repr

/-- `device::shade::SamplerVar`. -/
structure SamplerVar where
  name : String
  location : Nat
  base_type : BaseType
  sampler_type : SamplerType
deriving DecidableEq, Repr

/-- `query_attributes` (shade.rs lines 148-179): one descriptor per active
attribute; a type code that does not resolve to `Var` (Unknown or Sampler)
is logged and replaced by the default `(BaseF32, Single)` descriptor. -/
def query_attributes (attrs : List GlAttrib) : List Attribute :=
  attrs.map (fun a =>
    let bc : BaseType × ContainerType :=
      match StorageType.new a.storage with
      | .Var b c => (b, c)
      | _ => (.BaseF32, .Single)
    { name := a.name
      location := a.loc
      count := a.size
      base_type := bc.1
      container := bc.2 })

/-- Driver-reported data for one active uniform index: the owning block
index from `GetActiveUniformsiv(UNIFORM_BLOCK_INDEX)` (`-1` when free), and
the `GetActiveUniform`/`GetUniformLocation` results. -/
structure GlUniform where
  blockIndex : Int
  name : String
  size : Nat
  storage : Nat
  loc : Nat
deriving DecidableEq, Repr

/-- One iteration of the uniform walk in `query_parameters` (shade.rs lines
236-270): classify the type code and append to the uniform or sampler list,
or log and drop on `Unknown`. -/
def walkUniform (acc : List UniformVar × List SamplerVar) (u : GlUniform) :
    List UniformVar × List SamplerVar :=
  match StorageType.new u.storage with
  | .Var b c =>
    (acc.1 ++ [{ name := u.name, location := u.loc, count := u.size,
                 base_type := b, container := c }], acc.2)
  | .Sampler b t =>
    (acc.1, acc.2 ++ [{ name := u.name, location := u.loc,
                        base_type := b, sampler_type := t }])
  | .Unknown => acc

/-- `query_parameters` (shade.rs lines 217-272): block indices start as a
vector of `-1` and are overwritten by the batched driver query only when
uniform blocks are supported; the walk then visits exactly the indices
whose (possibly masked) block index is negative. -/
def query_parameters (caps : Capabilities) (us : List GlUniform) :
    List UniformVar × List SamplerVar :=
  let block_indices : List Int :=
    if caps.uniform_block_supported then us.map (·.blockIndex)
    else us.map (fun _ => -1)
  let walked := ((us.zip block_indices).filter (fun p => p.2 < 0)).map (·.1)
  walked.foldl walkUniform ([], [])

/-! ### Backend state and sampler emulation (src/gldevice/lib.rs
lines 211-344) -/

/-- `tex::SamplerInfo` is opaque to this subsystem: `create_sampler` only
stores and forwards it.  Modelled as a wrapped tag. -/
structure SamplerInfo where
  tag : Nat
deriving DecidableEq, Repr

/-- The mutable state of `GlBackEnd` visible to this subsystem: the
immutable capability snapshot and the sampler-emulation list
(lib.rs lines 211-220). -/
structure GlBackEnd where
  caps : Capabilities
  samplers : List SamplerInfo

/-- `device::CastRequest` (the `process` match arms, lib.rs lines 360-508).
Payloads that the backend merely forwards to the driver are reduced to
numeric handles. -/
inductive CastRequest where
  | Clear (data : Nat)
  | BindProgram (program : Nat)
  | BindArrayBuffer (array_buffer : Nat)
  | BindAttribute (slot buffer count : Nat)
  | BindIndex (buffer : Nat)
  | BindFrameBuffer (frame_buffer : Nat)
  | BindTarget (target plane : Nat)
  | BindUniformBlock (program index loc buffer : Nat)
  | BindUniform (loc uniform : Nat)
  | BindTexture (loc tex sam : Nat)
  | SetPrimitiveState (prim : Nat)
  | SetDepthStencilState (depth stencil cull : Nat)
  | SetBlendState (blend : Nat)
  | UpdateBuffer (buffer : Nat)
  | UpdateTexture (tex : Nat)
  | Draw (start count : Nat)
  | DrawIndexed (start count : Nat)
deriving DecidableEq, Repr

/-- The `&mut self` operations of `GlBackEnd` (the `ApiBackEnd` impl,
lib.rs lines 278-509).  `createSampler` carries the driver-side sampler
name that `tex::make_sampler` would return. -/
inductive GlOp where
  | createBuffer
  | createArrayBuffer
  | createShader (stage : Stage) (code : ShaderSource) (drv : ShaderDriver)
  | createProgram (shaders : List Nat)
  | createFrameBuffer
  | createTexture (info : Nat)
  | createSampler (info : SamplerInfo) (drvName : Nat)
  | updateBuffer (buffer : Nat)
  | process (request : CastRequest)
deriving DecidableEq, Repr

/-- `GlBackEnd::create_sampler` (lib.rs lines 337-344): with sampler-object
support, call `tex::make_sampler` (a driver call returning a driver handle);
otherwise push the description onto the emulation list and return the new
length minus one. -/
def create_sampler (b : GlBackEnd) (info : SamplerInfo) (drvName : Nat) :
    Nat × GlBackEnd :=
  if b.caps.sampler_objects_supported then
    (drvName, b)
  else
    let samplers := b.samplers ++ [info]
    (samplers.length - 1, { b with samplers := samplers })

/-- Effect of each backend operation on the backend state, paired with the
returned sampler handle for `createSampler`.  Every other method's body is
driver calls and logging only and never touches `self.samplers` (lib.rs
lines 278-509); `process(BindTexture ...)` calls `tex::bind_texture`, which
(Modelled from the spec: `tex.rs` is not part of the sources) only looks the
synthetic handle up in the list and applies the parameters inline, without
mutating the list. -/
def applyOp (b : GlBackEnd) : GlOp → Option Nat × GlBackEnd
  | .createBuffer => (none, b)
  | .createArrayBuffer => (none, b)
  | .createShader _ _ _ => (none, b)
  | .createProgram _ => (none, b)
  | .createFrameBuffer => (none, b)
  | .createTexture _ => (none, b)
  | .createSampler info drvName =>
    let r := create_sampler b info drvName
    (some r.1, r.2)
  | .updateBuffer _ => (none, b)
  | .process _ => (none, b)

/-- Run a sequence of backend operations, collecting the handles returned
by the sampler creations in order. -/
def runOps (b : GlBackEnd) : List GlOp → List Nat × GlBackEnd
  | [] => ([], b)
  | op :: rest =>
    match applyOp b op with
    | (some h, b2) =>
      let r := runOps b2 rest
      (h :: r.1, r.2)
    | (none, b2) => runOps b2 rest

/-- The sampler descriptions submitted by a sequence of operations, in
order. -/
def samplerInfos (ops : List GlOp) : List SamplerInfo :=
  ops.filterMap (fun op =>
    match op with
    | .createSampler info _ => some info
    | _ => none)

def GlOp.isCreateSampler : GlOp → Bool
  | .createSampler _ _ => true
  | _ => false

/-! ### Decidability and ordering helper lemmas -/

instance {e a : Type} [DecidableEq e] [DecidableEq a] : DecidableEq (Except e a)
  | .ok x, .ok y =>
    match decEq x y with
    | isTrue h => isTrue (by rw [h])
    | isFalse h => isFalse (by intro hh; cases hh; exact h rfl)
  | .ok _, .error _ => isFalse (by intro hh; cases hh)
  | .error _, .ok _ => isFalse (by intro hh; cases hh)
  | .error x, .error y =>
    match decEq x y with
    | isTrue h => isTrue (by rw [h])
    | isFalse h => isFalse (by intro hh; cases hh; exact h rfl)

lemma thenAssoc (a b c : Ordering) : (a.then b).then c = a.then (b.then c) := by
  cases a <;> rfl

lemma then_of_ne_eq {a : Ordering} (b : Ordering) (h : a ≠ .eq) :
    a.then b = a := by
  cases a <;> simp_all [Ordering.then]

lemma then_ne_lt {a b : Ordering} (ha : a ≠ .lt) (hb : b ≠ .lt) :
    a.then b ≠ .lt := by
  cases a <;> simp_all [Ordering.then]

lemma then_eq_lt {a b : Ordering} : a.then b = .lt ↔ (a = .lt ∨ (a = .eq ∧ b = .lt)) := by
  cases a <;> simp [Ordering.then]

lemma ordering_bne_lt (a : Ordering) : (a != .lt) = true ↔ a ≠ .lt := by
  cases a <;> decide

lemma ordering_bne_gt (a : Ordering) : (a != .gt) = true ↔ a ≠ .gt := by
  cases a <;> decide

lemma natCmp_self (a : Nat) : natCmp a a = .eq := by
  simp [natCmp]

lemma natCmp_eq_lt {a b : Nat} : natCmp a b = .lt ↔ a < b := by
  unfold natCmp
  split
  · simp_all
  · split <;> simp_all

lemma natCmp_eq_eq {a b : Nat} : natCmp a b = .eq ↔ a = b := by
  unfold natCmp
  split
  · simp_all
    omega
  · split <;> simp_all

lemma natCmp_eq_gt {a b : Nat} : natCmp a b = .gt ↔ b < a := by
  unfold natCmp
  split
  · simp_all
    omega
  · split
    · simp_all
    · simp_all
      omega

lemma optNatCmp_none_ne_lt (r : Option Nat) : optNatCmp r none ≠ .lt := by
  cases r <;> simp [optNatCmp]

lemma charsCmp_nil_ne_lt (l : List Char) : charsCmp l [] ≠ .lt := by
  cases l <;> simp [charsCmp]

lemma strCmp_empty_ne_lt (s : String) : strCmp s "" ≠ .lt := by
  unfold strCmp
  have h : ("" : String).data = [] := rfl
  rw [h]
  exact charsCmp_nil_ne_lt _

/-- The derived `>=` against a threshold `Version(maj, mi, None, "")` is
exactly the numeric test on `(major, minor)`: the `None` revision and empty
vendor string of the threshold can never make the comparison come out
`Less` once major and minor are decided. -/
lemma versionGe_threshold (v : Version) (maj mi : Nat) :
    versionGe v ⟨maj, mi, none, ""⟩ = true ↔
      (maj < v.major ∨ (v.major = maj ∧ mi ≤ v.minor)) := by
  simp only [versionGe, versionCmp, ordering_bne_lt, ne_eq, then_eq_lt,
    natCmp_eq_lt, natCmp_eq_eq, optNatCmp_none_ne_lt, strCmp_empty_ne_lt,
    false_and, and_false, or_false]
  omega

/-- Claim C1: each of the four capability flags computed at backend
construction is true if and only if the driver version is at least the
flag's fixed threshold (3.1, 3.0, 4.2, 3.3 respectively) or the extension
set contains the flag's named extension; a flag is false exactly when both
are absent. -/
theorem capability_flags_iff (sm : Version) (d t a : Nat) (info : Info) :
    ((mkCapabilities sm d t a info).uniform_block_supported = true ↔
      ((3 < info.version.major ∨ (info.version.major = 3 ∧ 1 ≤ info.version.minor))
        ∨ "GL_ARB_uniform_buffer_object" ∈ info.extensions)) ∧
    ((mkCapabilities sm d t a info).array_buffer_supported = true ↔
      ((3 < info.version.major ∨ (info.version.major = 3 ∧ 0 ≤ info.version.minor))
        ∨ "GL_ARB_vertex_array_object" ∈ info.extensions)) ∧
    ((mkCapabilities sm d t a info).immutable_storage_supported = true ↔
      ((4 < info.version.major ∨ (info.version.major = 4 ∧ 2 ≤ info.version.minor))
        ∨ "GL_ARB_texture_storage" ∈ info.extensions)) ∧
    ((mkCapabilities sm d t a info).sampler_objects_supported = true ↔
      ((3 < info.version.major ∨ (info.version.major = 3 ∧ 3 ≤ info.version.minor))
        ∨ "GL_ARB_sampler_objects" ∈ info.extensions)) := by
  refine ⟨?_, ?_, ?_, ?_⟩ <;>
    simp [mkCapabilities, Info.is_extension_supported, versionGe_threshold,
      List.contains, List.elem_iff]

/-! ### C3: Version ordering -/

/-- Numeric comparison of the version triple alone: (major, minor,
revision) with the derived `Option` ordering on the revision. -/
def tripleCmp (a b : Version) : Ordering :=
  (natCmp a.major b.major).then
    ((natCmp a.minor b.minor).then (optNatCmp a.revision b.revision))

/-- Claim C3 counterexample: the derived comparison does NOT treat a
missing revision as 0 and vendor_info is NOT excluded — `Version(1,2,None,v)`
and `Version(1,2,Some(0),v)` compare strictly (not equal), and two versions
differing only in vendor_info compare unequal. -/
theorem version_cmp_counterexample :
    versionCmp ⟨1, 2, none, "a"⟩ ⟨1, 2, some 0, "a"⟩ ≠ .eq ∧
    (⟨1, 2, none, "a"⟩ : Version) ≠ ⟨1, 2, some 0, "a"⟩ ∧
    versionCmp ⟨1, 2, none, "a"⟩ ⟨1, 2, none, "b"⟩ ≠ .eq ∧
    (⟨1, 2, none, "a"⟩ : Version) ≠ ⟨1, 2, none, "b"⟩ := by
  refine ⟨by decide, by decide, by decide, by decide⟩

/-- Claim C3 (amended): the comparison is the derived lexicographic
comparison of (major, minor, revision, vendor_info) in field order, where a
missing revision sorts strictly below every present revision (including 0)
rather than being treated as 0; vendor_info participates only as the final
tiebreaker and cannot overturn a decided numeric comparison; in particular
`Version(a,b,None,v1)` sorts strictly below `Version(a,b,Some(r),v2)`. -/
theorem version_order_amended :
    (∀ u v : Version,
      versionCmp u v = (tripleCmp u v).then (strCmp u.vendor_info v.vendor_info)) ∧
    (∀ u v : Version, tripleCmp u v ≠ .eq → versionCmp u v = tripleCmp u v) ∧
    (∀ a b r : Nat, ∀ v1 v2 : String,
      versionCmp ⟨a, b, none, v1⟩ ⟨a, b, some r, v2⟩ = .lt) := by
  have hsplit : ∀ u v : Version,
      versionCmp u v = (tripleCmp u v).then (strCmp u.vendor_info v.vendor_info) := by
    intro u v
    simp [versionCmp, tripleCmp, thenAssoc]
  refine ⟨hsplit, ?_, ?_⟩
  · intro u v h
    rw [hsplit, then_of_ne_eq _ h]
  · intro a b r v1 v2
    simp [versionCmp, natCmp_self, optNatCmp, Ordering.then]

/-- Claim C3 amended-theorem witness: the vendor-independence conjunct
applied at a concrete decided numeric comparison. -/
theorem version_order_amended_witness :
    versionCmp ⟨3, 2, none, "zzz"⟩ ⟨3, 1, none, ""⟩ =
      tripleCmp ⟨3, 2, none, "zzz"⟩ ⟨3, 1, none, ""⟩ :=
  version_order_amended.2.1 ⟨3, 2, none, "zzz"⟩ ⟨3, 1, none, ""⟩ (by decide)

/-! ### C4, C5: Version::parse -/

/-- Claim C4: the concrete parsing examples from the spec. -/
theorem version_parse_examples :
    Version.parse "1.2.3" = .ok ⟨1, 2, some 3, ""⟩ ∧
    Version.parse "1.2" = .ok ⟨1, 2, none, ""⟩ ∧
    Version.parse "1.2 h3l1o. W0rld" = .ok ⟨1, 2, none, "h3l1o. W0rld"⟩ ∧
    Version.parse "1.2.3.h3l1o. W0rld" = .ok ⟨1, 2, some 3, "W0rld"⟩ ∧
    Version.parse "1" = .error "1" := by
  refine ⟨by decide, by decide, by decide, by decide, by decide⟩

/-- Claim C5: whenever the first or second dot-separated field of the
release token fails to parse as a non-negative integer (including a missing,
empty or whitespace-only field), `Version::parse` fails and the error
payload is the original input string unchanged. -/
theorem version_parse_fails_on_bad_fields (src : String)
    (h : (releaseFields src)[0]?.bind parseUint = none ∨
         (releaseFields src)[1]?.bind parseUint = none) :
    Version.parse src = .error src := by
  unfold Version.parse
  rcases h with h | h
  · rw [h]
  · rw [h]
    cases (releaseFields src)[0]?.bind parseUint <;> rfl

/-- Claim C5 witness: the major field of `"x.2"` is not numeric, the minor
field of `"1. h3l1o"` (empty) is not numeric; both inputs fail returning
the input itself. -/
theorem version_parse_fails_witness :
    Version.parse "x.2" = .error "x.2" ∧
    Version.parse "1. h3l1o" = .error "1. h3l1o" :=
  ⟨version_parse_fails_on_bad_fields "x.2" (by decide),
   version_parse_fails_on_bad_fields "1. h3l1o" (by decide)⟩

/-! ### C2: shader variant selection -/

/-- The source-bundle field keyed by GLSL minor-version tag. -/
def sourceField (d : ShaderSource) : Nat → Option String
  | 50 => d.glsl_150
  | 40 => d.glsl_140
  | 30 => d.glsl_130
  | 20 => d.glsl_120
  | _ => none

/-- A tag qualifies when its source is present in the bundle and the
negotiated language version is at least `1.tag`. -/
def qualifies (d : ShaderSource) (lang : Version) (t : Nat) : Bool :=
  (sourceField d t).isSome && versionGe lang ⟨1, t, none, ""⟩

/-- The supported GLSL tags, newest first. -/
def glslTags : List Nat := [50, 40, 30, 20]

/-- Specification-side selection rule, written from the spec's words for
comparison with `selectShader`: evaluate the tags from newest to oldest and
take the first variant that is present and at most the negotiated
version. -/
def selectSpec (d : ShaderSource) (lang : Version) : Option String :=
  (glslTags.find? (qualifies d lang)).bind (sourceField d)

lemma selectShader_of_q50 (d : ShaderSource) (lang : Version)
    (h : qualifies d lang 50 = true) : selectShader d lang = d.glsl_150 := by
  simp only [qualifies, sourceField] at h
  simp [selectShader, h]

lemma selectShader_of_q40 (d : ShaderSource) (lang : Version)
    (h50 : qualifies d lang 50 = false) (h : qualifies d lang 40 = true) :
    selectShader d lang = d.glsl_140 := by
  simp only [qualifies, sourceField] at h50 h
  simp [selectShader, h50, h]

lemma selectShader_of_q30 (d : ShaderSource) (lang : Version)
    (h50 : qualifies d lang 50 = false) (h40 : qualifies d lang 40 = false)
    (h : qualifies d lang 30 = true) : selectShader d lang = d.glsl_130 := by
  simp only [qualifies, sourceField] at h50 h40 h
  simp [selectShader, h50, h40, h]

lemma selectShader_of_q20 (d : ShaderSource) (lang : Version)
    (h50 : qualifies d lang 50 = false) (h40 : qualifies d lang 40 = false)
    (h30 : qualifies d lang 30 = false) (h : qualifies d lang 20 = true) :
    selectShader d lang = d.glsl_120 := by
  simp only [qualifies, sourceField] at h50 h40 h30 h
  simp [selectShader, h50, h40, h30, h]

lemma selectShader_of_none (d : ShaderSource) (lang : Version)
    (h50 : qualifies d lang 50 = false) (h40 : qualifies d lang 40 = false)
    (h30 : qualifies d lang 30 = false) (h20 : qualifies d lang 20 = false) :
    selectShader d lang = none := by
  simp only [qualifies, sourceField] at h50 h40 h30 h20
  simp [selectShader, h50, h40, h30, h20]

/-- Claim C2: variant selection picks the highest tag among
{1.50, 1.40, 1.30, 1.20} whose source is present and at most the negotiated
version (equivalently: the first qualifying tag scanning newest to oldest);
with variants {1.20, 1.30, 1.50} and negotiated 1.40 the 1.30 variant is
selected; with negotiated 1.10 the call fails with the no-supported-variant
error before any compilation, independently of any driver state. -/
theorem shader_variant_selection :
    (∀ (d : ShaderSource) (lang : Version), selectShader d lang = selectSpec d lang) ∧
    (∀ (d : ShaderSource) (lang : Version) (t : Nat), t ∈ glslTags →
      qualifies d lang t = true →
      ∃ u, u ∈ glslTags ∧ t ≤ u ∧ qualifies d lang u = true ∧
        selectShader d lang = sourceField d u) ∧
    selectShader ⟨some "s120", some "s130", none, some "s150"⟩ ⟨1, 40, none, ""⟩
      = some "s130" ∧
    (∀ (stage : Stage) (drv : ShaderDriver),
      create_shader stage ⟨some "s120", some "s130", none, some "s150"⟩
          ⟨1, 10, none, ""⟩ drv =
        (.error .NoSupportedShaderProvided,
         some "[gfx-rs] No supported GLSL shader provided!")) := by
  refine ⟨?_, ?_, by decide, ?_⟩
  · intro d lang
    cases h50 : qualifies d lang 50 with
    | true =>
      rw [selectShader_of_q50 _ _ h50]
      simp [selectSpec, glslTags, List.find?, h50, sourceField]
    | false =>
      cases h40 : qualifies d lang 40 with
      | true =>
        rw [selectShader_of_q40 _ _ h50 h40]
        simp [selectSpec, glslTags, List.find?, h50, h40, sourceField]
      | false =>
        cases h30 : qualifies d lang 30 with
        | true =>
          rw [selectShader_of_q30 _ _ h50 h40 h30]
          simp [selectSpec, glslTags, List.find?, h50, h40, h30, sourceField]
        | false =>
          cases h20 : qualifies d lang 20 with
          | true =>
            rw [selectShader_of_q20 _ _ h50 h40 h30 h20]
            simp [selectSpec, glslTags, List.find?, h50, h40, h30, h20, sourceField]
          | false =>
            rw [selectShader_of_none _ _ h50 h40 h30 h20]
            simp [selectSpec, glslTags, List.find?, h50, h40, h30, h20]
  · intro d lang t ht hq
    cases h50 : qualifies d lang 50 with
    | true =>
      refine ⟨50, by simp [glslTags], ?_, h50, selectShader_of_q50 _ _ h50⟩
      simp [glslTags] at ht
      omega
    | false =>
      cases h40 : qualifies d lang 40 with
      | true =>
        refine ⟨40, by simp [glslTags], ?_, h40, selectShader_of_q40 _ _ h50 h40⟩
        simp [glslTags] at ht
        rcases ht with rfl | rfl | rfl | rfl
        · simp [h50] at hq
        · omega
        · omega
        · omega
      | false =>
        cases h30 : qualifies d lang 30 with
        | true =>
          refine ⟨30, by simp [glslTags], ?_, h30, selectShader_of_q30 _ _ h50 h40 h30⟩
          simp [glslTags] at ht
          rcases ht with rfl | rfl | rfl | rfl
          · simp [h50] at hq
          · simp [h40] at hq
          · omega
          · omega
        | false =>
          cases h20 : qualifies d lang 20 with
          | true =>
            refine ⟨20, by simp [glslTags], ?_, h20, selectShader_of_q20 _ _ h50 h40 h30 h20⟩
            simp [glslTags] at ht
            rcases ht with rfl | rfl | rfl | rfl
            · simp [h50] at hq
            · simp [h40] at hq
            · simp [h30] at hq
            · omega
          | false =>
            simp [glslTags] at ht
            rcases ht with rfl | rfl | rfl | rfl <;> simp_all
  · intro stage drv
    have hs : selectShader ⟨some "s120", some "s130", none, some "s150"⟩
        ⟨1, 10, none, ""⟩ = none := by decide
    simp [create_shader, hs]

/-- Claim C2 witness: in the bundle {1.20, 1.30, 1.50} with negotiated
version 1.40, tag 20 qualifies, so some qualifying tag at least 20 is
selected. -/
theorem shader_variant_selection_witness :
    ∃ u, u ∈ glslTags ∧ 20 ≤ u ∧
      qualifies ⟨some "s120", some "s130", none, some "s150"⟩ ⟨1, 40, none, ""⟩ u = true ∧
      selectShader ⟨some "s120", some "s130", none, some "s150"⟩ ⟨1, 40, none, ""⟩ =
        sourceField ⟨some "s120", some "s130", none, some "s150"⟩ u :=
  shader_variant_selection.2.1 _ _ 20 (by decide) (by decide)

/-! ### C8: compile status and diagnostic log -/

/-- Claim C8: once a variant is selected, success is determined solely by
the driver's compile-status flag (success exactly when nonzero), and the
diagnostic log is retrieved and returned exactly when its reported length
is positive, independently of the status. -/
theorem compile_status_and_log (stage : Stage) (d : ShaderSource)
    (lang : Version) (drv : ShaderDriver) (s : String)
    (hsel : selectShader d lang = some s) :
    ((create_shader stage d lang drv).1 = .ok drv.name ↔ drv.status ≠ 0) ∧
    ((create_shader stage d lang drv).1 = .error .ShaderCompilationFailed ↔
      drv.status = 0) ∧
    ((create_shader stage d lang drv).2 =
      if drv.logLength > 0 then some drv.log else none) := by
  refine ⟨?_, ?_, ?_⟩ <;> by_cases h : drv.status = 0 <;>
    simp [create_shader, hsel, h]

/-- Claim C8 witness: a driver that reports successful compilation with a
nonempty warning log yields a success result together with the log. -/
theorem compile_status_and_log_witness :
    ((create_shader .Vertex ⟨some "s", none, none, none⟩ ⟨1, 20, none, ""⟩
        ⟨7, 1, 5, "warn"⟩).1 = .ok 7 ↔ (1 : Int) ≠ 0) ∧
    ((create_shader .Vertex ⟨some "s", none, none, none⟩ ⟨1, 20, none, ""⟩
        ⟨7, 1, 5, "warn"⟩).1 = .error .ShaderCompilationFailed ↔ (1 : Int) = 0) ∧
    ((create_shader .Vertex ⟨some "s", none, none, none⟩ ⟨1, 20, none, ""⟩
        ⟨7, 1, 5, "warn"⟩).2 = if (5 : Int) > 0 then some "warn" else none) :=
  compile_status_and_log .Vertex ⟨some "s", none, none, none⟩ ⟨1, 20, none, ""⟩
    ⟨7, 1, 5, "warn"⟩ "s" (by decide)

/-! ### Introspection lemmas shared by C6, C7, C10 -/

lemma zip_map_filter (f : GlUniform → Int) (l : List GlUniform) :
    (((l.zip (l.map f)).filter (fun p => decide (p.2 < 0))).map (fun p => p.1))
      = l.filter (fun u => decide (f u < 0)) := by
  induction l with
  | nil => simp
  | cons a l ih =>
    simp only [List.map_cons, List.zip_cons_cons, List.filter_cons]
    by_cases h : f a < 0
    · simp [h, ih]
    · simp [h, ih]

/-- `query_parameters` walks exactly the uniforms passing the (possibly
masked) block-index test: all of them when uniform blocks are unsupported,
those with a negative reported block index otherwise. -/
lemma query_parameters_eq_filter (caps : Capabilities) (us : List GlUniform) :
    query_parameters caps us =
      (us.filter (fun u =>
        !caps.uniform_block_supported || decide (u.blockIndex < 0))).foldl
        walkUniform ([], []) := by
  unfold query_parameters
  cases h : caps.uniform_block_supported with
  | true =>
    simp only [h, if_true, Bool.not_true, Bool.false_or]
    rw [zip_map_filter]
  | false =>
    simp only [h, Bool.false_eq_true, if_false, Bool.not_false, Bool.true_or]
    rw [zip_map_filter (fun _ => -1)]
    simp

lemma walkUniform_unknown {u : GlUniform}
    (h : StorageType.new u.storage = .Unknown) (acc : List UniformVar × List SamplerVar) :
    walkUniform acc u = acc := by
  simp [walkUniform, h]

/-! ### C6: uniform-block exclusion -/

/-- Claim C6: with uniform-block support enabled, the free-uniform walk
visits exactly the uniforms whose driver-reported block index is negative;
uniforms owned by a block (index at least 0) contribute to neither returned
list, and dropping them from the input changes nothing. -/
theorem uniform_block_exclusion (caps : Capabilities) (us : List GlUniform)
    (h : caps.uniform_block_supported = true) :
    query_parameters caps us =
      (us.filter (fun u => decide (u.blockIndex < 0))).foldl walkUniform ([], []) ∧
    query_parameters caps us =
      query_parameters caps (us.filter (fun u => decide (u.blockIndex < 0))) := by
  have h1 := query_parameters_eq_filter caps us
  rw [h] at h1
  simp only [Bool.not_true, Bool.false_or] at h1
  refine ⟨h1, ?_⟩
  rw [h1, query_parameters_eq_filter]
  rw [h]
  simp [List.filter_filter]

/-- Claim C6 witness: a blocked uniform (block index 0) disappears from the
walk while free uniforms (block index -1) are all processed. -/
theorem uniform_block_exclusion_witness :
    query_parameters ⟨⟨4, 0, none, ""⟩, 8, 1024, 16, true, true, true, true⟩
        [⟨0, "blocked", 1, 0x1406, 0⟩, ⟨-1, "free", 1, 0x1406, 1⟩] =
      ([⟨"free", 1, 1, .BaseF32, .Single⟩], []) :=
  ((uniform_block_exclusion ⟨⟨4, 0, none, ""⟩, 8, 1024, 16, true, true, true, true⟩
      [⟨0, "blocked", 1, 0x1406, 0⟩, ⟨-1, "free", 1, 0x1406, 1⟩] rfl).1.trans
    (by decide))

/-! ### C7: tolerance of unrecognized type codes -/

def StorageType.isVar : StorageType → Bool
  | .Var _ _ => true
  | _ => false

/-- Claim C7: introspection never fails on a type code absent from the
table: attribute reflection returns one descriptor per active attribute,
substituting the default `(F32, Single)` descriptor when the code does not
resolve to a `Var`; uniform reflection drops a uniform whose code resolves
to `Unknown` from both returned lists while returning all other descriptors
unchanged. -/
theorem introspection_tolerates_unknown :
    (∀ attrs : List GlAttrib, (query_attributes attrs).length = attrs.length) ∧
    (∀ ga : GlAttrib, (StorageType.new ga.storage).isVar = false →
      query_attributes [ga] = [⟨ga.name, ga.loc, ga.size, .BaseF32, .Single⟩]) ∧
    (∀ (caps : Capabilities) (us1 us2 : List GlUniform) (u : GlUniform),
      StorageType.new u.storage = .Unknown →
      query_parameters caps (us1 ++ u :: us2) = query_parameters caps (us1 ++ us2)) := by
  refine ⟨?_, ?_, ?_⟩
  · intro attrs
    simp [query_attributes]
  · intro ga h
    simp only [query_attributes, List.map_cons, List.map_nil]
    cases hS : StorageType.new ga.storage with
    | Var b c => rw [hS] at h; cases h
    | Sampler b t => simp [hS]
    | Unknown => simp [hS]
  · intro caps us1 us2 u hU
    rw [query_parameters_eq_filter, query_parameters_eq_filter]
    simp only [List.filter_append, List.filter_cons]
    by_cases hp : (!caps.uniform_block_supported || decide (u.blockIndex < 0)) = true
    · simp only [hp, if_true]
      simp [List.foldl_append, walkUniform_unknown hU]
    · simp only [hp]
      simp

/-- Claim C7 witness: an attribute with unrecognized code 0x9999 gets the
default descriptor; a free uniform with the same code is dropped from the
walk without affecting the rest. -/
theorem introspection_tolerates_unknown_witness :
    query_attributes [⟨"a", 1, 0x9999, 3⟩] = [⟨"a", 3, 1, .BaseF32, .Single⟩] ∧
    query_parameters ⟨⟨4, 0, none, ""⟩, 8, 1024, 16, true, true, true, true⟩
        ([] ++ (⟨-1, "u", 1, 0x9999, 0⟩ : GlUniform) :: []) =
      query_parameters ⟨⟨4, 0, none, ""⟩, 8, 1024, 16, true, true, true, true⟩
        ([] ++ []) :=
  ⟨introspection_tolerates_unknown.2.1 ⟨"a", 1, 0x9999, 3⟩ (by decide),
   introspection_tolerates_unknown.2.2
     ⟨⟨4, 0, none, ""⟩, 8, 1024, 16, true, true, true, true⟩ [] []
     ⟨-1, "u", 1, 0x9999, 0⟩ (by decide)⟩

/-! ### C10: samplers in the table are all F32 -/

/-- The GL integer- and unsigned-integer-sampler type codes, none of which
appear in the `StorageType::new` table (its TODO comments mark them as
unhandled). -/
def intSamplerCodes : List Nat :=
  [0x8DC9, 0x8DCA, 0x8DCB, 0x8DCC, 0x8DCE, 0x8DCF,
   0x8DD1, 0x8DD2, 0x8DD3, 0x8DD4, 0x8DD6, 0x8DD7,
   0x8DCD, 0x8DD5, 0x9109, 0x910A, 0x910C, 0x910D]

/-- Claim C10: every type code the lookup classifies as a sampler has base
type F32; the integer/unsigned sampler codes are absent from the table and
classify as `Unknown`, and such a uniform is omitted from both returned
lists. -/
theorem sampler_table_f32_only :
    (∀ (code : Nat) (b : BaseType) (t : SamplerType),
      StorageType.new code = .Sampler b t → b = .BaseF32) ∧
    (∀ code ∈ intSamplerCodes, StorageType.new code = .Unknown) ∧
    (∀ (caps : Capabilities) (u : GlUniform),
      StorageType.new u.storage = .Unknown →
      query_parameters caps [u] = ([], [])) := by
  refine ⟨?_, by decide, ?_⟩
  · intro code b t h
    unfold StorageType.new at h
    split at h <;> simp_all
  · intro caps u hU
    rw [query_parameters_eq_filter]
    by_cases hp : (!caps.uniform_block_supported || decide (u.blockIndex < 0)) = true
    · simp [List.filter_cons, hp, walkUniform_unknown hU]
    · simp [List.filter_cons, hp]

/-- Claim C10 witness: `SAMPLER_2D` classifies with base F32, and a free
uniform with the `INT_SAMPLER_2D` code is dropped from both lists. -/
theorem sampler_table_f32_only_witness :
    BaseType.BaseF32 = BaseType.BaseF32 ∧
    query_parameters ⟨⟨4, 0, none, ""⟩, 8, 1024, 16, true, true, true, true⟩
        [⟨-1, "u", 1, 0x8DCA, 0⟩] = ([], []) :=
  ⟨sampler_table_f32_only.1 0x8B5E .BaseF32
      (.Sampler2D .NoArray .NoShadow .NoMultiSample .NoRect) (by decide),
   sampler_table_f32_only.2.2 ⟨⟨4, 0, none, ""⟩, 8, 1024, 16, true, true, true, true⟩
      ⟨-1, "u", 1, 0x8DCA, 0⟩ (by decide)⟩

/-! ### C9: sampler emulation list -/

lemma applyOp_caps (b : GlBackEnd) (op : GlOp) : (applyOp b op).2.caps = b.caps := by
  cases op with
  | createSampler info drvName =>
    simp only [applyOp, create_sampler]
    split <;> rfl
  | _ => rfl

/-- Running operations against a backend without sampler-object support:
the sampler handles are consecutive indices continuing from the current
list length, and the final list is the old list extended by the submitted
descriptions in order. -/
lemma runOps_general (ops : List GlOp) : ∀ b : GlBackEnd,
    b.caps.sampler_objects_supported = false →
    (runOps b ops).1 = List.range' b.samplers.length (samplerInfos ops).length 1 ∧
    (runOps b ops).2.samplers = b.samplers ++ samplerInfos ops := by
  induction ops with
  | nil =>
    intro b h
    simp [runOps, samplerInfos]
  | cons op rest ih =>
    intro b h
    cases op with
    | createSampler info drvName =>
      have hred : applyOp b (.createSampler info drvName) =
          (some b.samplers.length,
           { b with samplers := b.samplers ++ [info] }) := by
        simp [applyOp, create_sampler, h]
      have ih2 := ih { b with samplers := b.samplers ++ [info] } h
      simp only [runOps, hred]
      constructor
      · simp only [samplerInfos, List.filterMap_cons]
        simp only [List.length_cons, List.range'_succ]
        rw [ih2.1]
        simp [samplerInfos, List.length_append]
      · rw [ih2.2]
        simp [samplerInfos, List.filterMap_cons]
    | createBuffer =>
      simpa [runOps, applyOp, samplerInfos, List.filterMap_cons] using ih b h
    | createArrayBuffer =>
      simpa [runOps, applyOp, samplerInfos, List.filterMap_cons] using ih b h
    | createShader stage code drv =>
      simpa [runOps, applyOp, samplerInfos, List.filterMap_cons] using ih b h
    | createProgram shaders =>
      simpa [runOps, applyOp, samplerInfos, List.filterMap_cons] using ih b h
    | createFrameBuffer =>
      simpa [runOps, applyOp, samplerInfos, List.filterMap_cons] using ih b h
    | createTexture info =>
      simpa [runOps, applyOp, samplerInfos, List.filterMap_cons] using ih b h
    | updateBuffer buffer =>
      simpa [runOps, applyOp, samplerInfos, List.filterMap_cons] using ih b h
    | process request =>
      simpa [runOps, applyOp, samplerInfos, List.filterMap_cons] using ih b h

/-- Claim C9: without sampler-object support, each sampler creation appends
exactly one entry to the emulation list and returns the new length minus
one; no other backend operation changes the list; hence starting from a
fresh backend, N creations interleaved with arbitrary other operations
yield handles 0..N-1 in creation order and leave exactly the N submitted
descriptions in the list. -/
theorem sampler_emulation :
    (∀ (b : GlBackEnd) (info : SamplerInfo) (drvName : Nat),
      b.caps.sampler_objects_supported = false →
      create_sampler b info drvName =
        (b.samplers.length, { b with samplers := b.samplers ++ [info] })) ∧
    (∀ (b : GlBackEnd) (op : GlOp), op.isCreateSampler = false →
      (applyOp b op).2.samplers = b.samplers) ∧
    (∀ (ops : List GlOp) (b : GlBackEnd),
      b.caps.sampler_objects_supported = false → b.samplers = [] →
      (runOps b ops).1 = List.range (samplerInfos ops).length ∧
      (runOps b ops).2.samplers = samplerInfos ops) := by
  refine ⟨?_, ?_, ?_⟩
  · intro b info drvName h
    simp [create_sampler, h]
  · intro b op h
    cases op <;> simp_all [applyOp, GlOp.isCreateSampler]
  · intro ops b h hnil
    obtain ⟨h1, h2⟩ := runOps_general ops b h
    rw [hnil] at h1 h2
    constructor
    · rw [h1]
      simp [List.range_eq_range']
    · rw [h2]
      rfl

/-- Claim C9 witness: three sampler creations interleaved with buffer,
texture-binding and frame-buffer operations on a fresh backend without
sampler objects yield handles [0, 1, 2] and the list [10, 11, 12]. -/
theorem sampler_emulation_witness :
    (runOps ⟨⟨⟨3, 0, none, ""⟩, 8, 1024, 16, false, true, false, false⟩, []⟩
        [.createBuffer, .createSampler ⟨10⟩ 0, .process (.BindTexture 0 1 0),
         .createSampler ⟨11⟩ 0, .createFrameBuffer, .createSampler ⟨12⟩ 0]).1
      = [0, 1, 2] ∧
    (runOps ⟨⟨⟨3, 0, none, ""⟩, 8, 1024, 16, false, true, false, false⟩, []⟩
        [.createBuffer, .createSampler ⟨10⟩ 0, .process (.BindTexture 0 1 0),
         .createSampler ⟨11⟩ 0, .createFrameBuffer, .createSampler ⟨12⟩ 0]).2.samplers
      = [⟨10⟩, ⟨11⟩, ⟨12⟩] :=
  ⟨((sampler_emulation.2.2 _ _ rfl rfl).1).trans (by decide),
   ((sampler_emulation.2.2 _ _ rfl rfl).2).trans (by decide)⟩

end Gfx
